import Mathlib

/-!
# Verification of the key-validator API against its specification

This file gives a shallow embedding of the `key-validator-api` repository's
request handlers and settles the frozen claims about them.

The repository contains one named handler, `src/api/validate-key.js`
(symmetric HMAC-SHA256 scheme, bare-key-per-line registry), and four unnamed
variants:
  * `src/unnamed/part_000` — RSA scheme, structured registry lines, the
    registry lookup raises on fetch failures (errors propagate to the
    handler, which maps them to HTTP 500 responses);
  * `src/unnamed/part_001` — HMAC scheme, loop-based bare-key lookup, the
    HMAC verification length-gates on the hex-decoded buffers;
  * `src/unnamed/part_002` — HMAC scheme, textually near-identical to the
    named file (same lookup, same verification, same handler flow); it is
    embedded once, as module `M` below;
  * `src/unnamed/part_003` — RSA scheme, structured registry lines,
    fail-closed lookup, the GET branch issues a license regardless of
    validity.

Modelling conventions:
  * JavaScript values appearing in the handlers are embedded as the
    inductive `JVal` (JSON values: the output of `JSON.parse` never contains
    `undefined`, so there is no `undefined` constructor; an absent object
    property is `Option.none`).
  * Machine-level crypto primitives (`crypto.createHmac(...).digest('hex')`,
    RSA-SHA256 sign/verify) are external library calls, not repository code;
    they enter the embedding as explicit function parameters (`hmac`,
    `RsaScheme`).  Everything the repository itself does — canonical
    serialization, length checks, hex decoding, comparison, control flow —
    is translated directly from the source.
  * The registry fetch (`node-fetch` against the GitHub gist API) is
    external I/O; its possible outcomes, as distinguished by the source's
    own branches, are the inductive `FetchOutcome`.
  * `Buffer.from(s, 'hex')` follows Node's documented semantics: decode
    hex-digit pairs from the start, stopping at the first character pair
    that is not two hex digits (`hexDecode`).
  * `crypto.timingSafeEqual` throws when the buffers have different lengths
    and otherwise reports byte equality; the embedding records, in
    `CmpResult.compared`, whether a value comparison was actually performed
    (it is not when lengths differ, matching `timingSafeEqual`'s guard).
  * String `.length` is modelled as the codepoint count; all strings the
    claims exercise are ASCII, where this coincides with JS UTF-16 length.
  * `JSON.stringify` is modelled for the value shapes the handlers build
    and receive (objects in insertion order, strings with standard JSON
    escaping, integers, booleans, null, arrays).
  * An uncaught exception in a handler (destructuring `null`, reachable via
    a POST body `"null"`) surfaces as the platform's generic 500 response,
    `crashResp`.
-/

namespace KV

/-- JSON values, as produced by `JSON.parse` and consumed by the handlers. -/
inductive JVal where
  | null : JVal
  | bool (b : Bool) : JVal
  | num (n : Int) : JVal
  | str (s : String) : JVal
  | obj (fields : List (String × JVal)) : JVal
  | arr (elems : List JVal) : JVal

/-- Is the value JS `null`?  (Destructuring it throws a TypeError.) -/
def JVal.isNull : JVal → Bool
  | .null => true
  | _ => false

/-- JS truthiness of a (JSON-representable) value. -/
def JVal.truthy : JVal → Bool
  | .null => false
  | .bool b => b
  | .num n => n != 0
  | .str s => !s.isEmpty
  | .obj _ => true
  | .arr _ => true

/-- Property access `v.name`: field lookup on objects, `undefined` (none)
on every other JSON value.  (JS property access on primitives yields
`undefined`; only `null`/`undefined` would throw, handled separately.) -/
def getField : JVal → String → Option JVal
  | .obj fs, name => lookupField fs name
  | _, _ => none
where
  lookupField : List (String × JVal) → String → Option JVal
  | [], _ => none
  | (k, v) :: rest, name => if k = name then some v else lookupField rest name

/-- `!v || typeof v !== 'object'` fails exactly when this is true:
the property is present, truthy, and of type object (a non-null object or
an array). -/
def objLike : Option JVal → Bool
  | some (.obj _) => true
  | some (.arr _) => true
  | _ => false

/-- `!v || typeof v !== 'string'` fails exactly when the value is a
non-empty string; extract it. -/
def asNonEmptyString : Option JVal → Option String
  | some (.str s) => if s.isEmpty then none else some s
  | _ => none

/-- Lower-case hex digit for `n < 16`. -/
def hexDigitChar (n : Nat) : Char :=
  if n < 10 then Char.ofNat (48 + n) else Char.ofNat (87 + n)

/-- Four-digit lower-case hex rendering, for JSON `\u00XX` escapes. -/
def hex4 (n : Nat) : String :=
  String.mk [hexDigitChar (n / 4096 % 16), hexDigitChar (n / 256 % 16),
             hexDigitChar (n / 16 % 16), hexDigitChar (n % 16)]

/-- JSON string escaping of one character (as `JSON.stringify` emits it). -/
def jsonEscapeChar (c : Char) : String :=
  if c = '"' then "\\\""
  else if c = '\\' then "\\\\"
  else if c = '\n' then "\\n"
  else if c = '\r' then "\\r"
  else if c = '\t' then "\\t"
  else if c = Char.ofNat 8 then "\\b"
  else if c = Char.ofNat 12 then "\\f"
  else if c.toNat < 32 then "\\u" ++ hex4 c.toNat
  else String.singleton c

/-- JSON string literal for `s`. -/
def jsonQuote (s : String) : String :=
  "\"" ++ String.join (s.data.map jsonEscapeChar) ++ "\""

mutual
/-- `JSON.stringify` (no replacer, no spacing): object fields in insertion
order, no extraneous whitespace — the canonical serialization both the
issuer and the verifier depend on byte-for-byte. -/
def jsonStringify : JVal → String
  | .null => "null"
  | .bool true => "true"
  | .bool false => "false"
  | .num n => toString n
  | .str s => jsonQuote s
  | .obj fs => "\x7b" ++ jsonFields fs ++ "\x7d"
  | .arr es => "[" ++ jsonElems es ++ "]"

/-- Comma-separated `"key":value` renderings of an object's fields. -/
def jsonFields : List (String × JVal) → String
  | [] => ""
  | [(k, v)] => jsonQuote k ++ ":" ++ jsonStringify v
  | (k, v) :: rest => jsonQuote k ++ ":" ++ jsonStringify v ++ "," ++ jsonFields rest

/-- Comma-separated renderings of an array's elements. -/
def jsonElems : List JVal → String
  | [] => ""
  | [v] => jsonStringify v
  | v :: rest => jsonStringify v ++ "," ++ jsonElems rest
end

/-- The whitespace characters JS `String.prototype.trim` removes (restricted
to the ASCII ones; the handlers only meet ASCII registry content). -/
def isJsWs (c : Char) : Bool :=
  c = ' ' || c = '\t' || c = '\n' || c = '\r' ||
  c = Char.ofNat 11 || c = Char.ofNat 12

/-- JS `s.trim()`: drop leading and trailing whitespace. -/
def jsTrim (s : String) : String :=
  String.mk (((s.data.dropWhile isJsWs).reverse.dropWhile isJsWs).reverse)

/-- JS `s.split(sep)` for a single-character separator: every occurrence
splits, empty segments are kept. -/
def jsSplitChars (sep : Char) : List Char → List Char → List String
  | [], acc => [String.mk acc.reverse]
  | c :: rest, acc =>
    if c = sep then String.mk acc.reverse :: jsSplitChars sep rest []
    else jsSplitChars sep rest (c :: acc)

/-- JS `s.split(sep)` on a string. -/
def jsSplit (sep : Char) (s : String) : List String := jsSplitChars sep s.data []

/-- JS `s.startsWith(p)`. -/
def jsStartsWith (p s : String) : Bool := p.data.isPrefixOf s.data

/-- Value of a hex digit character, `none` for a non-hex character. -/
def hexDigitVal (c : Char) : Option Nat :=
  if 48 ≤ c.toNat ∧ c.toNat ≤ 57 then some (c.toNat - 48)
  else if 97 ≤ c.toNat ∧ c.toNat ≤ 102 then some (c.toNat - 87)
  else if 65 ≤ c.toNat ∧ c.toNat ≤ 70 then some (c.toNat - 55)
  else none

/-- `Buffer.from(s, 'hex')`: decode hex pairs from the start, truncating at
the first pair that is not two hex digits (Node's documented behaviour;
an odd trailing digit is likewise dropped). -/
def hexDecodeChars : List Char → List Nat
  | c1 :: c2 :: rest =>
    match hexDigitVal c1, hexDigitVal c2 with
    | some hi, some lo => (16 * hi + lo) :: hexDecodeChars rest
    | _, _ => []
  | _ => []

/-- `Buffer.from(s, 'hex')` on a string. -/
def hexDecode (s : String) : List Nat := hexDecodeChars s.data

/-- Outcome of the gist fetch, as distinguished by the source's branches:
`networkError` (the `fetch` call throws), `httpError` (`!gistResp.ok`),
`badJson` (`gistResp.json()` throws), or a response whose
`files?.['keys.txt']?.content` is a string (`ok (some content)`) or is
missing / not a string (`ok none`). -/
inductive FetchOutcome where
  | networkError : FetchOutcome
  | httpError : FetchOutcome
  | badJson : FetchOutcome
  | ok (keysTxt : Option String) : FetchOutcome

/-- One observable HTTP response: status code, content type, body text. -/
structure HttpResponse where
  status : Nat
  contentType : String
  body : String
deriving DecidableEq, Repr

/-- Result of running a handler on one request, instrumented with whether
the registry fetch was performed (`isKeyValidInGist` was invoked). -/
structure HandlerResult where
  resp : HttpResponse
  fetched : Bool
deriving DecidableEq, Repr

/-- Result of an HMAC signature verification, instrumented with whether a
value comparison (`crypto.timingSafeEqual` actually comparing bytes) was
performed. -/
structure CmpResult where
  result : Bool
  compared : Bool
deriving DecidableEq, Repr

/-- Request methods distinguished by the handlers. -/
inductive Method where
  | GET | POST | other
deriving DecidableEq

/-- Outcome of `parseJsonBody`: a JSON parse failure or a parsed value. -/
inductive ReqBody where
  | parseError : ReqBody
  | parsed (v : JVal) : ReqBody

/-- An inbound request: method, (POST) body, and `req.query.key`. -/
structure Request where
  method : Method
  body : ReqBody
  queryKey : Option String

/-- The three configured secrets/identifiers as environment values
(`none` = unset; the empty string is also falsy in the `!X` checks). -/
structure Env where
  gistToken : Option String
  gistId : Option String
  secret : Option String

/-- JS truthiness of an optional environment string. -/
def truthyEnv : Option String → Bool
  | none => false
  | some s => !s.isEmpty

/-- `GIST_TOKEN && GIST_ID && <secret>` are all present and non-empty. -/
def Env.configured (e : Env) : Bool :=
  truthyEnv e.gistToken && truthyEnv e.gistId && truthyEnv e.secret

/-- The secret's value once `configured` holds. -/
def Env.secretVal (e : Env) : String := e.secret.getD ""

/-- `{"key": k}` — the minimal canonical payload of the HMAC scheme. -/
def keyPayload (k : String) : JVal := .obj [("key", .str k)]

/-- The plain-text `invalid` rejection (`res.status(200).send('invalid')`). -/
def invalidPlain : HttpResponse := ⟨200, "text/plain", "invalid"⟩

/-- The plain-text `valid` verdict. -/
def validPlain : HttpResponse := ⟨200, "text/plain", "valid"⟩

/-- The platform's generic response to an uncaught handler exception
(destructuring a `null` body). -/
def crashResp : HttpResponse := ⟨500, "text/plain", "Internal Server Error"⟩

/-- The verdict text of the POST branches. -/
def verdictText (ok : Bool) : String := if ok then "valid" else "invalid"

end KV

namespace M
/-! ## `src/api/validate-key.js` (and the near-identical `src/unnamed/part_002`):
HMAC-SHA256 scheme, bare-key-per-line registry. -/

open KV

/-- Lines 52-55: `content.split('\n').map(l => l.trim()).filter(l => l)`
followed by `lines.includes(key)`. -/
def gistLines (content : String) : List String :=
  ((jsSplit '\n' content).map jsTrim).filter (fun l => !l.isEmpty)

/-- Lines 33-60: fetch the gist and test membership of `key`; every
failure branch (`catch`, `!gistResp.ok`, missing/ill-typed `keys.txt`)
returns `false`. -/
def isKeyValidInGist (fetch : FetchOutcome) (key : String) : Bool :=
  match fetch with
  | .networkError => false
  | .httpError => false
  | .badJson => false
  | .ok none => false
  | .ok (some content) => (gistLines content).contains key

/-- Lines 63-78: recompute the HMAC hex digest over
`JSON.stringify(payloadObj)`; reject on differing string length before any
comparison; otherwise hex-decode both and run `crypto.timingSafeEqual`,
which throws (caught, yielding `false`) when the decoded buffers differ in
length and compares bytes otherwise.  `hmac secret message` stands for
`crypto.createHmac('sha256', secret).update(message).digest('hex')`. -/
def verifyHmacSignature (hmac : String → String → String) (secret : String)
    (payloadObj : JVal) (signatureHex : String) : CmpResult :=
  let payloadJson := jsonStringify payloadObj
  let expectedHex := hmac secret payloadJson
  if signatureHex.length ≠ expectedHex.length then ⟨false, false⟩
  else
    let sigBuf := hexDecode signatureHex
    let expBuf := hexDecode expectedHex
    if sigBuf.length ≠ expBuf.length then ⟨false, false⟩
    else ⟨sigBuf = expBuf, true⟩

/-- The POST body shape check of lines 90-94:
`!payload || typeof payload !== 'object' || !signature || typeof signature
!== 'string'` rejects unless the payload is a truthy object and the
signature a non-empty string. -/
def shape (v : JVal) : Option (JVal × String) :=
  match getField v "payload", asNonEmptyString (getField v "signature") with
  | some p, some s => if objLike (some p) then some (p, s) else none
  | _, _ => none

/-- Lines 95-99: `payload.key` must be a truthy string. -/
def keyOf (payload : JVal) : Option String :=
  asNonEmptyString (getField payload "key")

/-- Lines 80-109, the POST branch: parse body, shape checks, key check,
HMAC verification over the reconstructed `{key}` payload, and only then
the registry lookup. -/
def postFlow (hmac : String → String → String) (secret : String)
    (fetch : FetchOutcome) (body : ReqBody) : HandlerResult :=
  match body with
  | .parseError => ⟨invalidPlain, false⟩
  | .parsed b =>
    if b.isNull then ⟨crashResp, false⟩
    else match shape b with
    | none => ⟨invalidPlain, false⟩
    | some (payload, sig) =>
      match keyOf payload with
      | none => ⟨invalidPlain, false⟩
      | some key =>
        if (verifyHmacSignature hmac secret (keyPayload key) sig).result then
          ⟨⟨200, "text/plain", verdictText (isKeyValidInGist fetch key)⟩, true⟩
        else ⟨invalidPlain, false⟩

/-- Lines 129-133: the issued license blob
`{ payload: {key}, issued_at, signature }`. -/
def licenseBlob (key issuedAt sigHex : String) : JVal :=
  .obj [("payload", keyPayload key), ("issued_at", .str issuedAt),
        ("signature", .str sigHex)]

/-- Lines 111-136, the GET branch: require a truthy string `?key=`,
look it up, refuse with plain `invalid` when the lookup fails, otherwise
sign `JSON.stringify({key})` and return the JSON license blob. -/
def getFlow (hmac : String → String → String) (secret : String)
    (fetch : FetchOutcome) (issuedAt : String) (queryKey : Option String) :
    HandlerResult :=
  match queryKey with
  | none => ⟨⟨400, "text/plain", "invalid"⟩, false⟩
  | some k =>
    if k.isEmpty then ⟨⟨400, "text/plain", "invalid"⟩, false⟩
    else if isKeyValidInGist fetch k then
      ⟨⟨200, "application/json",
        jsonStringify (licenseBlob k issuedAt
          (hmac secret (jsonStringify (keyPayload k))))⟩, true⟩
    else ⟨invalidPlain, true⟩

/-- The whole handler: configuration check first (lines 10-17; GET/POST
get plain `invalid`, other methods a 500 JSON error), then dispatch on the
method, with 405 for other methods (lines 138-139). -/
def handler (hmac : String → String → String) (env : Env)
    (fetch : FetchOutcome) (issuedAt : String) (req : Request) :
    HandlerResult :=
  if env.configured then
    match req.method with
    | .POST => postFlow hmac env.secretVal fetch req.body
    | .GET => getFlow hmac env.secretVal fetch issuedAt req.queryKey
    | .other =>
      ⟨⟨405, "application/json",
        jsonStringify (.obj [("error", .str "Method not allowed")])⟩, false⟩
  else
    match req.method with
    | .POST | .GET => ⟨invalidPlain, false⟩
    | .other =>
      ⟨⟨500, "application/json",
        jsonStringify (.obj [("error", .str "Server misconfigured")])⟩, false⟩

/-- Key and signature extraction of the POST branch, as one partial map:
`some (key, sig)` exactly when all the input checks preceding the HMAC
verification pass. -/
def extract (body : ReqBody) : Option (String × String) :=
  match body with
  | .parseError => none
  | .parsed b =>
    if b.isNull then none
    else match shape b with
    | none => none
    | some (payload, sig) =>
      match keyOf payload with
      | none => none
      | some key => some (key, sig)

/-- The POST gate: the checks pass and the HMAC signature verifies. -/
def postGate (hmac : String → String → String) (secret : String)
    (body : ReqBody) : Bool :=
  match extract body with
  | some (key, sig) => (verifyHmacSignature hmac secret (keyPayload key) sig).result
  | none => false

end M

namespace KV

/-- The status of a key in the registry, as the specification's
`KeyStatus ∈ \x7bNotFound, Valid, Redeemed(by, at)\x7d`.  The structured
lookup's `redeemed_at` field may be absent from a short line, hence the
`Option`. -/
inductive KeyStatus where
  | NotFound : KeyStatus
  | Valid : KeyStatus
  | Redeemed (who : String) (time : Option String) : KeyStatus
deriving DecidableEq, Repr

/-- The structured line scan of `part_000` lines 52-64 / `part_003` lines
41-53, returned as the source's boolean: per raw line, trim; skip blank
lines and `#` comments; split on the first 4 comma fields; on the first
line whose first field equals the key, return `false` when `redeemed_by`
(field 3) is a non-empty, non-blank string, else `true`; `false` when no
line matches. -/
def structuredBool : List String → String → Bool
  | [], _ => false
  | raw :: rest, key =>
    let line := jsTrim raw
    if line.isEmpty || jsStartsWith "#" line then structuredBool rest key
    else
      let parts := (jsSplit ',' line).take 4
      if parts.getD 0 "" = key then
        match parts.get? 2 with
        | some s => if !s.isEmpty && !(jsTrim s).isEmpty then false else true
        | none => true
      else structuredBool rest key

/-- The same scan, recording which branch fires as a `KeyStatus`:
`Redeemed` exactly when the source's `return false` inside the match body
runs (non-empty `redeemed_by`), `Valid` on its `return true`, `NotFound`
when the loop falls through. -/
def structuredStatus : List String → String → KeyStatus
  | [], _ => .NotFound
  | raw :: rest, key =>
    let line := jsTrim raw
    if line.isEmpty || jsStartsWith "#" line then structuredStatus rest key
    else
      let parts := (jsSplit ',' line).take 4
      if parts.getD 0 "" = key then
        match parts.get? 2 with
        | some s =>
          if !s.isEmpty && !(jsTrim s).isEmpty then .Redeemed s (parts.get? 3)
          else .Valid
        | none => .Valid
      else structuredStatus rest key

/-- First matching structured line, as its (≤ 4) comma fields: the
spec-side decomposition of the scan into "find the record" plus
"apply the redemption policy". -/
def findMatch : List String → String → Option (List String)
  | [], _ => none
  | raw :: rest, key =>
    let line := jsTrim raw
    if line.isEmpty || jsStartsWith "#" line then findMatch rest key
    else
      let parts := (jsSplit ',' line).take 4
      if parts.getD 0 "" = key then some parts else findMatch rest key

/-- The specification's redemption policy applied to an optional matched
record: no match is `NotFound`; a match with a non-empty (and non-blank)
`redeemed_by` field is `Redeemed`; a match with an empty or absent field
is `Valid`. -/
def redemptionPolicy : Option (List String) → KeyStatus
  | none => .NotFound
  | some parts =>
    match parts.get? 2 with
    | some s =>
      if !s.isEmpty && !(jsTrim s).isEmpty then .Redeemed s (parts.get? 3)
      else .Valid
    | none => .Valid

/-- An abstract asymmetric signing scheme: `sign` maps a message to a
base64 signature (`none` when `crypto.createSign(...).sign(...)` throws);
`verify` checks a message/signature pair (`false` also covers every
exception caught by the source's `try`/`catch`). -/
structure RsaScheme where
  sign : String → Option String
  verify : String → String → Bool

end KV

namespace P1
/-! ## `src/unnamed/part_001`: HMAC scheme; the lookup is a trim-and-compare
loop over raw lines, and the HMAC verification length-gates on the
hex-decoded buffers instead of the hex strings. -/

open KV

/-- Lines 55-63: iterate the raw lines, trim, skip blank lines, return
`true` on the first line equal to the key. -/
def bareLoop : List String → String → Bool
  | [], _ => false
  | raw :: rest, key =>
    let line := jsTrim raw
    if line.isEmpty then bareLoop rest key
    else if line = key then true
    else bareLoop rest key

/-- Lines 36-68: fetch wrapper; all failure branches return `false`. -/
def isKeyValidInGist (fetch : FetchOutcome) (key : String) : Bool :=
  match fetch with
  | .networkError => false
  | .httpError => false
  | .badJson => false
  | .ok none => false
  | .ok (some content) => bareLoop (jsSplit '\n' content) key

/-- Lines 71-85: hex-decode the supplied signature and the recomputed
digest first, reject when the decoded buffers differ in length, then
`crypto.timingSafeEqual` (buffers already equal-length, so it cannot
throw). -/
def verifyHmacSignature (hmac : String → String → String) (secret : String)
    (payloadObj : JVal) (signatureHex : String) : CmpResult :=
  let payloadJson := jsonStringify payloadObj
  let expectedHex := hmac secret payloadJson
  let sigBuf := hexDecode signatureHex
  let expBuf := hexDecode expectedHex
  if sigBuf.length ≠ expBuf.length then ⟨false, false⟩
  else ⟨sigBuf = expBuf, true⟩

end P1

namespace P3
/-! ## `src/unnamed/part_003`: RSA scheme, structured registry lines,
fail-closed lookup, GET issues a license regardless of validity. -/

open KV

/-- Lines 22-59: fetch wrapper around the structured scan; the `catch`,
`!gistResp.ok` and missing-file branches all return `false` (fail-closed). -/
def isKeyValidInGist (fetch : FetchOutcome) (key : String) : Bool :=
  match fetch with
  | .networkError => false
  | .httpError => false
  | .badJson => false
  | .ok none => false
  | .ok (some content) => structuredBool (jsSplit '\n' content) key

/-- Lines 88-92: same POST body shape check as the named file. -/
def shape (v : JVal) : Option (JVal × String) :=
  match getField v "payload", asNonEmptyString (getField v "signature") with
  | some p, some s => if objLike (some p) then some (p, s) else none
  | _, _ => none

/-- Lines 100-105: `payload.key` must be a truthy string (checked only
after the signature has verified). -/
def keyOf (payload : JVal) : Option String :=
  asNonEmptyString (getField payload "key")

/-- Lines 78-110, the POST branch: parse body, shape checks, RSA-SHA256
verification over `JSON.stringify(payload)` (the caller's whole payload),
then the key check, then the registry lookup. -/
def postFlow (rsa : RsaScheme) (fetch : FetchOutcome) (body : ReqBody) :
    HandlerResult :=
  match body with
  | .parseError => ⟨invalidPlain, false⟩
  | .parsed b =>
    if b.isNull then ⟨crashResp, false⟩
    else match shape b with
    | none => ⟨invalidPlain, false⟩
    | some (payload, sig) =>
      if rsa.verify (jsonStringify payload) sig then
        match keyOf payload with
        | none => ⟨invalidPlain, false⟩
        | some key =>
          ⟨⟨200, "text/plain", verdictText (isKeyValidInGist fetch key)⟩, true⟩
      else ⟨invalidPlain, false⟩

/-- Line 119: the issued payload
`\x7b key, valid: keyOk, redeemed_by: null, redeemed_at: null \x7d`. -/
def issuePayload (key : String) (keyOk : Bool) : JVal :=
  .obj [("key", .str key), ("valid", .bool keyOk),
        ("redeemed_by", .null), ("redeemed_at", .null)]

/-- Lines 112-131, the GET branch: `!key` rejects with a 400 JSON error;
otherwise look the key up, build the payload whatever the lookup said,
sign `JSON.stringify(payload)` and return `\x7bpayload, signature\x7d`
(500 when signing throws). -/
def getFlow (rsa : RsaScheme) (fetch : FetchOutcome)
    (queryKey : Option String) : HandlerResult :=
  match queryKey with
  | none =>
    ⟨⟨400, "application/json",
      jsonStringify (.obj [("error", .str "Missing key parameter")])⟩, false⟩
  | some k =>
    if k.isEmpty then
      ⟨⟨400, "application/json",
        jsonStringify (.obj [("error", .str "Missing key parameter")])⟩, false⟩
    else
      let keyOk := isKeyValidInGist fetch k
      let payload := issuePayload k keyOk
      match rsa.sign (jsonStringify payload) with
      | some sig =>
        ⟨⟨200, "application/json",
          jsonStringify (.obj [("payload", payload), ("signature", .str sig)])⟩,
         true⟩
      | none =>
        ⟨⟨500, "application/json",
          jsonStringify (.obj [("error", .str "Signing failed")])⟩, true⟩

/-- The whole handler: configuration check (lines 11-19: POST gets plain
`invalid`, other methods a 500 JSON error), then method dispatch; the
trailing lines 133-139 (405, with a dead POST branch) for other methods. -/
def handler (rsa : RsaScheme) (env : Env) (fetch : FetchOutcome)
    (req : Request) : HandlerResult :=
  if env.configured then
    match req.method with
    | .POST => postFlow rsa fetch req.body
    | .GET => getFlow rsa fetch req.queryKey
    | .other =>
      ⟨⟨405, "application/json",
        jsonStringify (.obj [("error", .str "Method not allowed")])⟩, false⟩
  else
    match req.method with
    | .POST => ⟨invalidPlain, false⟩
    | _ =>
      ⟨⟨500, "application/json",
        jsonStringify (.obj [("error", .str "Server misconfigured")])⟩, false⟩

/-- Payload and signature extraction of the POST branch: `some` exactly
when the body parses and the shape checks pass. -/
def extractShape (body : ReqBody) : Option (JVal × String) :=
  match body with
  | .parseError => none
  | .parsed b => if b.isNull then none else shape b

/-- The POST gate: shape checks pass, the signature verifies over the
caller's serialized payload, and the payload carries a truthy string key. -/
def postGate (rsa : RsaScheme) (body : ReqBody) : Bool :=
  match extractShape body with
  | some (payload, sig) =>
    rsa.verify (jsonStringify payload) sig && (keyOf payload).isSome
  | none => false

end P3

namespace P0
/-! ## `src/unnamed/part_000`: RSA scheme, structured registry lines; the
registry lookup `throw`s on fetch-stage failures, and the handler maps
those errors to HTTP 500 responses. -/

open KV

/-- The errors `isKeyValidInGist` raises (lines 30-45): a network failure
of `fetch`, a non-success GitHub response, or an unparseable JSON body. -/
inductive LookupError where
  | network : LookupError
  | github : LookupError
  | invalidJson : LookupError
deriving DecidableEq, Repr

/-- Lines 19-66: unlike every other variant, the fetch-stage failures
`throw new Error(...)` — the error propagates out of the lookup.  Only a
missing or non-string `keys.txt` degrades to `false`; a fetched content is
scanned with the structured-line logic. -/
def isKeyValidInGist (fetch : FetchOutcome) (key : String) :
    Except LookupError Bool :=
  match fetch with
  | .networkError => .error .network
  | .httpError => .error .github
  | .badJson => .error .invalidJson
  | .ok none => .ok false
  | .ok (some content) => .ok (structuredBool (jsSplit '\n' content) key)

/-- A 400/500 JSON error body `\x7bvalid:false, error:msg\x7d`. -/
def errBody (msg : String) : String :=
  jsonStringify (.obj [("valid", .bool false), ("error", .str msg)])

/-- Lines 89-120, the POST branch: parse body (400 on failure), shape
checks (400), RSA verification over the caller's serialized payload (200
`\x7bvalid:false\x7d` on mismatch), key check (400), then the lookup —
whose error is caught and mapped to a 500 — and finally 200
`\x7bvalid:keyOk\x7d`. -/
def postFlow (rsa : RsaScheme) (fetch : FetchOutcome) (body : ReqBody) :
    HandlerResult :=
  match body with
  | .parseError => ⟨⟨400, "application/json", errBody "Invalid JSON body"⟩, false⟩
  | .parsed b =>
    if b.isNull then ⟨crashResp, false⟩
    else match P3.shape b with
    | none =>
      ⟨⟨400, "application/json",
        errBody "Body must have payload object and signature string"⟩, false⟩
    | some (payload, sig) =>
      if rsa.verify (jsonStringify payload) sig then
        match P3.keyOf payload with
        | none =>
          ⟨⟨400, "application/json", errBody "Payload missing key field"⟩, false⟩
        | some key =>
          match isKeyValidInGist fetch key with
          | .error _ =>
            ⟨⟨500, "application/json", errBody "Error checking key"⟩, true⟩
          | .ok keyOk =>
            ⟨⟨200, "application/json",
              jsonStringify (.obj [("valid", .bool keyOk)])⟩, true⟩
      else ⟨⟨200, "application/json", errBody "Signature invalid"⟩, false⟩

/-- Lines 123-150, the GET branch: `!key` gives a 400 JSON error; a lookup
error gives a 500; the payload `\x7bkey, valid, redeemed_by: null,
redeemed_at: null\x7d` is signed and returned (500 when signing throws). -/
def getFlow (rsa : RsaScheme) (fetch : FetchOutcome)
    (queryKey : Option String) : HandlerResult :=
  match queryKey with
  | none =>
    ⟨⟨400, "application/json",
      jsonStringify (.obj [("error", .str "Missing key parameter")])⟩, false⟩
  | some k =>
    if k.isEmpty then
      ⟨⟨400, "application/json",
        jsonStringify (.obj [("error", .str "Missing key parameter")])⟩, false⟩
    else
      match isKeyValidInGist fetch k with
      | .error _ =>
        ⟨⟨500, "application/json",
          jsonStringify (.obj [("error", .str "Error checking key")])⟩, true⟩
      | .ok keyOk =>
        let payload := P3.issuePayload k keyOk
        match rsa.sign (jsonStringify payload) with
        | some sig =>
          ⟨⟨200, "application/json",
            jsonStringify (.obj [("payload", payload), ("signature", .str sig)])⟩,
           true⟩
        | none =>
          ⟨⟨500, "application/json",
            jsonStringify (.obj [("error", .str "Signing failed")])⟩, true⟩

/-- The whole handler of `part_000`: a missing secret is a 500 JSON error
for every method (lines 12-16); then method dispatch, 405 otherwise. -/
def handler (rsa : RsaScheme) (env : Env) (fetch : FetchOutcome)
    (req : Request) : HandlerResult :=
  if env.configured then
    match req.method with
    | .POST => postFlow rsa fetch req.body
    | .GET => getFlow rsa fetch req.queryKey
    | .other =>
      ⟨⟨405, "application/json",
        jsonStringify (.obj [("error", .str "Method not allowed")])⟩, false⟩
  else
    ⟨⟨500, "application/json",
      jsonStringify (.obj [("error", .str "Server misconfigured")])⟩, false⟩

end P0

namespace KV

/-- A parsed `null` POST body, the one input on which the handlers'
destructuring throws. -/
def crashBody : ReqBody → Bool
  | .parseError => false
  | .parsed v => v.isNull

end KV

open KV

/-- The structured scan equals the spec-side decomposition: find the first
matching non-skipped line, then apply the redemption policy to it. -/
theorem structuredStatus_eq_policy (lines : List String) (key : String) :
    structuredStatus lines key = redemptionPolicy (findMatch lines key) := by
  induction lines with
  | nil => rfl
  | cons raw rest ih =>
    by_cases hskip : ((jsTrim raw).isEmpty || jsStartsWith "#" (jsTrim raw)) = true
    · simpa [structuredStatus, findMatch, hskip] using ih
    · by_cases hmatch : (jsSplit ',' (jsTrim raw))[0]?.getD "" = key
      · simp [structuredStatus, findMatch, hskip, hmatch, redemptionPolicy]
      · simpa [structuredStatus, findMatch, hskip, hmatch] using ih

/-- The source's boolean result is exactly "the status is `Valid`":
a `Redeemed` or `NotFound` key is reported not valid. -/
theorem structuredBool_eq_valid (lines : List String) (key : String) :
    structuredBool lines key = decide (structuredStatus lines key = KeyStatus.Valid) := by
  induction lines with
  | nil => rfl
  | cons raw rest ih =>
    by_cases hskip : ((jsTrim raw).isEmpty || jsStartsWith "#" (jsTrim raw)) = true
    · simpa [structuredBool, structuredStatus, hskip] using ih
    · by_cases hmatch : (jsSplit ',' (jsTrim raw))[0]?.getD "" = key
      · cases hpart : (jsSplit ',' (jsTrim raw))[2]? with
        | none => simp [structuredBool, structuredStatus, hskip, hmatch, hpart]
        | some s =>
          by_cases h1 : s.isEmpty = true
          · simp [structuredBool, structuredStatus, hskip, hmatch, hpart, h1]
          · by_cases h2 : (jsTrim s).isEmpty = true
            · simp [structuredBool, structuredStatus, hskip, hmatch, hpart, h1, h2]
            · simp [structuredBool, structuredStatus, hskip, hmatch, hpart, h1, h2]
      · simpa [structuredBool, structuredStatus, hskip, hmatch] using ih

/-- The registry content of the specification's scenario. -/
def scenarioContent : String := "abc123\n#comment\ndef456,role1,alice,2024-01-01\n"

/-- Claim C3: the structured registry lookup implements the redemption
policy — the scan result is the redemption policy applied to the first
matching non-skipped line (`Redeemed` for a non-empty `redeemed_by`
field, `Valid` for an empty or absent one, `NotFound` for no match), the
source's boolean report is `true` exactly on `Valid`, and on the scenario
content `"abc123\n#comment\ndef456,role1,alice,2024-01-01\n"` the keys
`abc123`, `def456`, `zzz` are `Valid`, `Redeemed("alice", "2024-01-01")`
and `NotFound` respectively (with the boolean lookups of the structured
variants `part_000`/`part_003` — and, on this scenario, also the bare-line
variants — agreeing). -/
theorem claim_C3_redemption_policy :
    (∀ (lines : List String) (key : String),
      structuredStatus lines key = redemptionPolicy (findMatch lines key)) ∧
    (∀ (lines : List String) (key : String),
      structuredBool lines key = decide (structuredStatus lines key = KeyStatus.Valid)) ∧
    structuredStatus (jsSplit '\n' scenarioContent) "abc123" = KeyStatus.Valid ∧
    structuredStatus (jsSplit '\n' scenarioContent) "def456"
      = KeyStatus.Redeemed "alice" (some "2024-01-01") ∧
    structuredStatus (jsSplit '\n' scenarioContent) "zzz" = KeyStatus.NotFound ∧
    P3.isKeyValidInGist (.ok (some scenarioContent)) "abc123" = true ∧
    P3.isKeyValidInGist (.ok (some scenarioContent)) "def456" = false ∧
    P3.isKeyValidInGist (.ok (some scenarioContent)) "zzz" = false ∧
    M.isKeyValidInGist (.ok (some scenarioContent)) "abc123" = true ∧
    M.isKeyValidInGist (.ok (some scenarioContent)) "def456" = false ∧
    M.isKeyValidInGist (.ok (some scenarioContent)) "zzz" = false ∧
    P1.isKeyValidInGist (.ok (some scenarioContent)) "abc123" = true ∧
    P1.isKeyValidInGist (.ok (some scenarioContent)) "def456" = false ∧
    P1.isKeyValidInGist (.ok (some scenarioContent)) "zzz" = false := by
  refine ⟨structuredStatus_eq_policy, structuredBool_eq_valid, ?_, ?_, ?_, ?_, ?_,
    ?_, ?_, ?_, ?_, ?_, ?_, ?_⟩ <;> decide

/-- The named file's POST branch, factored through the extraction map:
the response and fetch behaviour depend only on the extracted key and
signature (and the registry), and on nothing else in the body. -/
theorem M_postFlow_characterization (hmac : String → String → String)
    (secret : String) (fetch : FetchOutcome) (body : ReqBody) :
    M.postFlow hmac secret fetch body =
      match M.extract body with
      | some (k, s) =>
        if (M.verifyHmacSignature hmac secret (keyPayload k) s).result then
          ⟨⟨200, "text/plain", verdictText (M.isKeyValidInGist fetch k)⟩, true⟩
        else ⟨invalidPlain, false⟩
      | none => ⟨if crashBody body then crashResp else invalidPlain, false⟩ := by
  cases body with
  | parseError => rfl
  | parsed b =>
    by_cases hnull : b.isNull = true
    · simp [M.postFlow, M.extract, crashBody, hnull]
    · cases hs : M.shape b with
      | none => simp [M.postFlow, M.extract, crashBody, hnull, hs]
      | some ps =>
        obtain ⟨payload, sig⟩ := ps
        cases hk : M.keyOf payload with
        | none => simp [M.postFlow, M.extract, crashBody, hnull, hs, hk]
        | some key =>
          by_cases hv :
            (M.verifyHmacSignature hmac secret (keyPayload key) sig).result = true
          · simp [M.postFlow, M.extract, hnull, hs, hk, hv]
          · simp [M.postFlow, M.extract, crashBody, hnull, hs, hk, hv]

/-- `part_003`'s POST branch, factored through the shape extraction:
signature verification over the caller's whole serialized payload comes
first; the key is only consulted afterwards, and the verdict is the fresh
registry lookup of that key. -/
theorem P3_postFlow_characterization (rsa : RsaScheme) (fetch : FetchOutcome)
    (body : ReqBody) :
    P3.postFlow rsa fetch body =
      match P3.extractShape body with
      | some (payload, sig) =>
        if rsa.verify (jsonStringify payload) sig then
          match P3.keyOf payload with
          | some k =>
            ⟨⟨200, "text/plain", verdictText (P3.isKeyValidInGist fetch k)⟩, true⟩
          | none => ⟨invalidPlain, false⟩
        else ⟨invalidPlain, false⟩
      | none => ⟨if crashBody body then crashResp else invalidPlain, false⟩ := by
  cases body with
  | parseError => rfl
  | parsed b =>
    by_cases hnull : b.isNull = true
    · simp [P3.postFlow, P3.extractShape, crashBody, hnull]
    · cases hs : P3.shape b with
      | none => simp [P3.postFlow, P3.extractShape, crashBody, hnull, hs]
      | some ps =>
        obtain ⟨payload, sig⟩ := ps
        by_cases hv : rsa.verify (jsonStringify payload) sig = true
        · cases hk : P3.keyOf payload with
          | none => simp [P3.postFlow, P3.extractShape, hnull, hs, hv, hk]
          | some key => simp [P3.postFlow, P3.extractShape, hnull, hs, hv, hk]
        · simp [P3.postFlow, P3.extractShape, hnull, hs, hv]

/-- Claim C1: in both verify handlers (the named file's HMAC POST branch
and `part_003`'s RSA POST branch) the signature check precedes and gates
the registry lookup — the registry is fetched exactly when the
configuration check, the input checks and the signature verification all
pass, and whenever the gate fails the handler answers with the plain
`invalid` rejection (or the platform 500 for the `null`-body crash)
without the registry ever being consulted. -/
theorem claim_C1_signature_gates_lookup :
    (∀ (hmac : String → String → String) (env : Env) (fetch : FetchOutcome)
       (t : String) (b : ReqBody) (q : Option String),
      (M.handler hmac env fetch t ⟨.POST, b, q⟩).fetched
        = (env.configured && M.postGate hmac env.secretVal b)) ∧
    (∀ (rsa : RsaScheme) (env : Env) (fetch : FetchOutcome) (b : ReqBody)
       (q : Option String),
      (P3.handler rsa env fetch ⟨.POST, b, q⟩).fetched
        = (env.configured && P3.postGate rsa b)) ∧
    (∀ (hmac : String → String → String) (env : Env) (fetch : FetchOutcome)
       (t : String) (b : ReqBody) (q : Option String),
      M.postGate hmac env.secretVal b = false →
      (M.handler hmac env fetch t ⟨.POST, b, q⟩).resp = invalidPlain ∨
      (M.handler hmac env fetch t ⟨.POST, b, q⟩).resp = crashResp) ∧
    (∀ (rsa : RsaScheme) (env : Env) (fetch : FetchOutcome) (b : ReqBody)
       (q : Option String),
      P3.postGate rsa b = false →
      (P3.handler rsa env fetch ⟨.POST, b, q⟩).resp = invalidPlain ∨
      (P3.handler rsa env fetch ⟨.POST, b, q⟩).resp = crashResp) := by
  refine ⟨?_, ?_, ?_, ?_⟩
  · intro hmac env fetch t b q
    by_cases hc : env.configured = true
    · simp only [M.handler, hc, if_pos]
      rw [M_postFlow_characterization]
      simp only [M.postGate]
      cases hx : M.extract b with
      | none => simp
      | some ks =>
        obtain ⟨k, s⟩ := ks
        by_cases hv :
          (M.verifyHmacSignature hmac env.secretVal (keyPayload k) s).result = true
        · simp [hv]
        · simp [hv]
    · simp [M.handler, hc, M.postGate]
  · intro rsa env fetch b q
    by_cases hc : env.configured = true
    · simp only [P3.handler, hc, if_pos]
      rw [P3_postFlow_characterization]
      simp only [P3.postGate]
      cases hx : P3.extractShape b with
      | none => simp
      | some ps =>
        obtain ⟨payload, sig⟩ := ps
        by_cases hv : rsa.verify (jsonStringify payload) sig = true
        · cases hk : P3.keyOf payload with
          | none => simp [hv, hk]
          | some key => simp [hv, hk]
        · simp [hv]
    · simp [P3.handler, hc, P3.postGate]
  · intro hmac env fetch t b q hg
    by_cases hc : env.configured = true
    · simp only [M.handler, hc, if_pos]
      rw [M_postFlow_characterization]
      simp only [M.postGate] at hg
      cases hx : M.extract b with
      | none =>
        by_cases hcb : crashBody b = true
        · right; simp [hcb]
        · left; simp [hcb]
      | some ks =>
        obtain ⟨k, s⟩ := ks
        rw [hx] at hg
        simp only [Bool.false_eq_true] at hg
        left; simp [hg]
    · left; simp [M.handler, hc]
  · intro rsa env fetch b q hg
    by_cases hc : env.configured = true
    · simp only [P3.handler, hc, if_pos]
      rw [P3_postFlow_characterization]
      simp only [P3.postGate] at hg
      cases hx : P3.extractShape b with
      | none =>
        by_cases hcb : crashBody b = true
        · right; simp [hcb]
        · left; simp [hcb]
      | some ps =>
        obtain ⟨payload, sig⟩ := ps
        rw [hx] at hg
        simp only [Bool.and_eq_false_iff] at hg
        rcases hg with hv | hk
        · left; simp [hv]
        · left
          cases hko : P3.keyOf payload with
          | none =>
            by_cases hv : rsa.verify (jsonStringify payload) sig = true
            · simp [hv, hko]
            · simp [hv]
          | some key => simp [hko] at hk
    · left; simp [P3.handler, hc]

/-- A concrete stand-in for the HMAC-SHA256 hex digest: a constant 64-char
lower-case hex output, sharing real HMAC-SHA256-hex's shape. -/
def hmac0 : String → String → String := fun _ _ =>
  "0000000000000000000000000000000000000000000000000000000000000000"

/-- A fully configured environment. -/
def env0 : Env := ⟨some "tok", some "gid", some "sec"⟩

/-- An environment with every secret missing. -/
def envMissing : Env := ⟨none, none, none⟩

/-- A concrete stand-in for the RSA scheme: the signature of a message is
the message itself, and verification compares them — it satisfies the
sign/verify round-trip contract. -/
def rsa0 : RsaScheme := ⟨fun m => some m, fun m s => m == s⟩

/-- A registry fetch that succeeded with content `"abc123\n"`. -/
def fetch0 : FetchOutcome := .ok (some "abc123\n")

/-- A well-shaped POST body whose signature (`"ab"`) does not verify. -/
def badSigBody : ReqBody :=
  .parsed (.obj [("payload", .obj [("key", .str "abc123")]),
                 ("signature", .str "ab")])

/-- Witness for claim C1 at concrete inputs: a well-shaped body with a
non-verifying signature triggers no registry fetch and gets the plain
`invalid` rejection, in both handlers. -/
theorem claim_C1_witness :
    ((M.handler hmac0 env0 fetch0 "t" ⟨.POST, badSigBody, none⟩).fetched
       = (env0.configured && M.postGate hmac0 env0.secretVal badSigBody)) ∧
    M.postGate hmac0 env0.secretVal badSigBody = false ∧
    ((M.handler hmac0 env0 fetch0 "t" ⟨.POST, badSigBody, none⟩).resp = invalidPlain ∨
     (M.handler hmac0 env0 fetch0 "t" ⟨.POST, badSigBody, none⟩).resp = crashResp) ∧
    ((P3.handler rsa0 env0 fetch0 ⟨.POST, badSigBody, none⟩).fetched
       = (env0.configured && P3.postGate rsa0 badSigBody)) ∧
    P3.postGate rsa0 badSigBody = false ∧
    ((P3.handler rsa0 env0 fetch0 ⟨.POST, badSigBody, none⟩).resp = invalidPlain ∨
     (P3.handler rsa0 env0 fetch0 ⟨.POST, badSigBody, none⟩).resp = crashResp) :=
  ⟨claim_C1_signature_gates_lookup.1 hmac0 env0 fetch0 "t" badSigBody none,
   by decide,
   claim_C1_signature_gates_lookup.2.2.1 hmac0 env0 fetch0 "t" badSigBody none
     (by decide),
   claim_C1_signature_gates_lookup.2.1 rsa0 env0 fetch0 badSigBody none,
   by decide,
   claim_C1_signature_gates_lookup.2.2.2 rsa0 env0 fetch0 badSigBody none
     (by decide)⟩

/-- Counterexample to claim C2 as stated: in `part_000` (one of the two
cited lookups) a network failure of the registry fetch makes the lookup
raise an error — the error propagates out of the lookup instead of the
result degrading to `NotFound`/`false`. -/
theorem claim_C2_counterexample :
    P0.isKeyValidInGist .networkError "abc123" = .error .network ∧
    P0.isKeyValidInGist .networkError "abc123" ≠ .ok false := by
  refine ⟨rfl, ?_⟩
  intro h
  exact absurd h (by simp [P0.isKeyValidInGist])

/-- Claim C2 amended: in the HMAC variants and in `part_003` the registry
lookup fails closed — network failure, non-success response, unparseable
body, and a missing/ill-typed `keys.txt` all yield `false` (not valid);
in `part_000` the fetch-stage failures propagate as errors out of the
lookup (only the missing-file case degrades to `false`), and the handler
maps a propagated lookup error to a 500 response — so in every variant an
unreachable registry never produces a `valid` verdict. -/
theorem claim_C2_fail_closed_amended :
    (∀ (key : String) (fetch : FetchOutcome),
      (fetch = .networkError ∨ fetch = .httpError ∨ fetch = .badJson ∨
       fetch = .ok none) →
      M.isKeyValidInGist fetch key = false ∧
      P1.isKeyValidInGist fetch key = false ∧
      P3.isKeyValidInGist fetch key = false) ∧
    (∀ key : String,
      P0.isKeyValidInGist .networkError key = .error .network ∧
      P0.isKeyValidInGist .httpError key = .error .github ∧
      P0.isKeyValidInGist .badJson key = .error .invalidJson ∧
      P0.isKeyValidInGist (.ok none) key = .ok false) ∧
    (∀ (rsa : RsaScheme) (env : Env) (b : ReqBody) (q : Option String)
       (fetch : FetchOutcome),
      (fetch = .networkError ∨ fetch = .httpError ∨ fetch = .badJson) →
      (P0.handler rsa env fetch ⟨.POST, b, q⟩).resp
        ≠ ⟨200, "application/json", jsonStringify (.obj [("valid", .bool true)])⟩) := by
  refine ⟨?_, ?_, ?_⟩
  · intro key fetch h
    rcases h with rfl | rfl | rfl | rfl <;> exact ⟨rfl, rfl, rfl⟩
  · intro key
    exact ⟨rfl, rfl, rfl, rfl⟩
  · intro rsa env b q fetch hf
    by_cases hc : env.configured = true
    · simp only [P0.handler, hc, if_pos]
      cases b with
      | parseError => simp [P0.postFlow]
      | parsed v =>
        by_cases hn : v.isNull = true
        · simp [P0.postFlow, hn]
          decide
        · cases hs : P3.shape v with
          | none => simp [P0.postFlow, hn, hs]
          | some ps =>
            obtain ⟨payload, sig⟩ := ps
            by_cases hv : rsa.verify (jsonStringify payload) sig = true
            · cases hk : P3.keyOf payload with
              | none => simp [P0.postFlow, hn, hs, hv, hk]
              | some key =>
                rcases hf with rfl | rfl | rfl <;>
                  simp [P0.postFlow, hn, hs, hv, hk, P0.isKeyValidInGist]
            · simp [P0.postFlow, hn, hs, hv]
              decide
    · simp [P0.handler, hc]

/-- Witness for the amended claim C2 at concrete inputs. -/
theorem claim_C2_witness :
    (M.isKeyValidInGist .networkError "abc123" = false ∧
     P1.isKeyValidInGist .networkError "abc123" = false ∧
     P3.isKeyValidInGist .networkError "abc123" = false) ∧
    ((P0.handler rsa0 env0 .networkError ⟨.POST, badSigBody, none⟩).resp
      ≠ ⟨200, "application/json", jsonStringify (.obj [("valid", .bool true)])⟩) :=
  ⟨claim_C2_fail_closed_amended.1 "abc123" .networkError (Or.inl rfl),
   claim_C2_fail_closed_amended.2.2 rsa0 env0 badSigBody none .networkError
     (Or.inl rfl)⟩

/-- Sign-then-verify round-trip of the HMAC core: verifying the freshly
recomputed digest always succeeds (equal strings have equal lengths and
equal decoded buffers). -/
theorem M_verify_roundtrip (hmac : String → String → String)
    (secret key : String) :
    M.verifyHmacSignature hmac secret (keyPayload key)
      (hmac secret (jsonStringify (keyPayload key))) = ⟨true, true⟩ := by
  unfold M.verifyHmacSignature
  simp

/-- A Bool-flavoured reading of non-emptiness. -/
theorem isEmpty_false_of_ne (s : String) (h : s ≠ "") : s.isEmpty = false := by
  cases he : s.isEmpty
  · rfl
  · exact absurd ((String.isEmpty_iff s).mp he) h

/-- The named file's POST shape check accepts a standard
`{payload, signature}` body. -/
theorem M_shape_std (p : JVal) (s : String) (hobj : objLike (some p) = true)
    (hs : s.isEmpty = false) :
    M.shape (.obj [("payload", p), ("signature", .str s)]) = some (p, s) := by
  simp [M.shape, getField, getField.lookupField, asNonEmptyString, hs, hobj]

/-- `part_003`'s POST shape check accepts a standard
`{payload, signature}` body. -/
theorem P3_shape_std (p : JVal) (s : String) (hobj : objLike (some p) = true)
    (hs : s.isEmpty = false) :
    P3.shape (.obj [("payload", p), ("signature", .str s)]) = some (p, s) := by
  simp [P3.shape, getField, getField.lookupField, asNonEmptyString, hs, hobj]

/-- The key the named file's POST branch extracts from the minimal issued
payload is the issued key. -/
theorem M_keyOf_keyPayload (k : String) (hk : k.isEmpty = false) :
    M.keyOf (keyPayload k) = some k := by
  simp [M.keyOf, keyPayload, getField, getField.lookupField, asNonEmptyString, hk]

/-- The key `part_003`'s POST branch extracts from an issued payload is the
issued key. -/
theorem P3_keyOf_issuePayload (k : String) (b : Bool) (hk : k.isEmpty = false) :
    P3.keyOf (P3.issuePayload k b) = some k := by
  simp [P3.keyOf, P3.issuePayload, getField, getField.lookupField,
        asNonEmptyString, hk]

/-- Claim C4: the issue/verify round-trip holds for both schemes.  For the
HMAC scheme, the core verification of the digest the GET branch issues
over `JSON.stringify({key})` succeeds, and a POST carrying the issued
payload and signature gets the fresh registry verdict with the registry
consulted (the signature check passed).  For the RSA scheme, assuming the
abstract scheme's own sign/verify round-trip, a POST carrying a
`part_003`-issued payload and signature likewise reaches the fresh
registry verdict. -/
theorem claim_C4_roundtrip :
    (∀ (hmac : String → String → String) (secret key : String),
      M.verifyHmacSignature hmac secret (keyPayload key)
        (hmac secret (jsonStringify (keyPayload key))) = ⟨true, true⟩) ∧
    (∀ (hmac : String → String → String) (env : Env) (fetchV : FetchOutcome)
       (t key : String) (q : Option String),
      env.configured = true → key ≠ "" →
      hmac env.secretVal (jsonStringify (keyPayload key)) ≠ "" →
      M.handler hmac env fetchV t
        ⟨.POST,
         .parsed (.obj [("payload", keyPayload key),
                        ("signature",
                         .str (hmac env.secretVal (jsonStringify (keyPayload key))))]),
         q⟩
        = ⟨⟨200, "text/plain", verdictText (M.isKeyValidInGist fetchV key)⟩, true⟩) ∧
    (∀ (rsa : RsaScheme) (env : Env) (fetchI fetchV : FetchOutcome)
       (key sig : String) (q : Option String),
      (∀ m s, rsa.sign m = some s → rsa.verify m s = true) →
      env.configured = true → key ≠ "" → sig ≠ "" →
      rsa.sign (jsonStringify (P3.issuePayload key (P3.isKeyValidInGist fetchI key)))
        = some sig →
      P3.handler rsa env fetchV
        ⟨.POST,
         .parsed (.obj [("payload", P3.issuePayload key (P3.isKeyValidInGist fetchI key)),
                        ("signature", .str sig)]),
         q⟩
        = ⟨⟨200, "text/plain", verdictText (P3.isKeyValidInGist fetchV key)⟩, true⟩) := by
  refine ⟨M_verify_roundtrip, ?_, ?_⟩
  · intro hmac env fetchV t key q hc hk hs
    have hk2 := isEmpty_false_of_ne key hk
    have hs2 := isEmpty_false_of_ne _ hs
    simp only [M.handler, hc, if_pos]
    simp [M.postFlow, JVal.isNull,
          M_shape_std (keyPayload key)
            (hmac env.secretVal (jsonStringify (keyPayload key))) rfl hs2,
          M_keyOf_keyPayload key hk2, M_verify_roundtrip]
  · intro rsa env fetchI fetchV key sig q hrt hc hk hs hsig
    have hk2 := isEmpty_false_of_ne key hk
    have hs2 := isEmpty_false_of_ne sig hs
    have hv := hrt _ _ hsig
    simp only [P3.handler, hc, if_pos]
    simp [P3.postFlow, JVal.isNull,
          P3_shape_std (P3.issuePayload key (P3.isKeyValidInGist fetchI key)) sig
            rfl hs2,
          P3_keyOf_issuePayload key (P3.isKeyValidInGist fetchI key) hk2, hv]

/-- The concrete signature `rsa0` issues for the `part_003` payload of key
`abc123` against the `fetch0` registry. -/
def sigC4 : String :=
  jsonStringify (P3.issuePayload "abc123" (P3.isKeyValidInGist fetch0 "abc123"))

/-- Witness for claim C4 at concrete inputs: a license issued for
`abc123` round-trips through the verify path of each scheme. -/
theorem claim_C4_witness :
    (M.handler hmac0 env0 fetch0 "t"
      ⟨.POST,
       .parsed (.obj [("payload", keyPayload "abc123"),
                      ("signature",
                       .str (hmac0 env0.secretVal (jsonStringify (keyPayload "abc123"))))]),
       none⟩
      = ⟨⟨200, "text/plain", verdictText (M.isKeyValidInGist fetch0 "abc123")⟩, true⟩) ∧
    (P3.handler rsa0 env0 fetch0
      ⟨.POST,
       .parsed (.obj [("payload",
                       P3.issuePayload "abc123" (P3.isKeyValidInGist fetch0 "abc123")),
                      ("signature", .str sigC4)]),
       none⟩
      = ⟨⟨200, "text/plain", verdictText (P3.isKeyValidInGist fetch0 "abc123")⟩, true⟩) ∧
    verdictText (M.isKeyValidInGist fetch0 "abc123") = "valid" :=
  ⟨claim_C4_roundtrip.2.1 hmac0 env0 fetch0 "t" "abc123" none (by decide)
     (by decide) (by decide),
   claim_C4_roundtrip.2.2 rsa0 env0 fetch0 fetch0 "abc123" sigC4 none
     (fun m s h => by
       simp only [rsa0] at h ⊢
       injection h with h2
       subst h2
       simp)
     (by decide) (by decide) (by decide) rfl,
   by decide⟩

/-- Claim C5: once the signature check has passed, the verify handlers of
both RSA variants recompute the verdict from a fresh registry lookup of
the key named in the caller's payload — the response is a function of that
key and the registry alone, so the `valid`, `redeemed_by` and
`redeemed_at` values the caller supplies in the payload cannot influence
it. -/
theorem claim_C5_fresh_verdict :
    (∀ (rsa : RsaScheme) (env : Env) (fetch : FetchOutcome) (b : ReqBody)
       (q : Option String) (payload : JVal) (sig key : String),
      env.configured = true →
      P3.extractShape b = some (payload, sig) →
      rsa.verify (jsonStringify payload) sig = true →
      P3.keyOf payload = some key →
      P3.handler rsa env fetch ⟨.POST, b, q⟩
        = ⟨⟨200, "text/plain", verdictText (P3.isKeyValidInGist fetch key)⟩, true⟩) ∧
    (∀ (rsa : RsaScheme) (env : Env) (fetch : FetchOutcome) (b : ReqBody)
       (q : Option String) (payload : JVal) (sig key : String),
      env.configured = true →
      P3.extractShape b = some (payload, sig) →
      rsa.verify (jsonStringify payload) sig = true →
      P3.keyOf payload = some key →
      P0.handler rsa env fetch ⟨.POST, b, q⟩
        = match P0.isKeyValidInGist fetch key with
          | .ok keyOk =>
            ⟨⟨200, "application/json",
              jsonStringify (.obj [("valid", .bool keyOk)])⟩, true⟩
          | .error _ =>
            ⟨⟨500, "application/json", P0.errBody "Error checking key"⟩, true⟩) := by
  constructor
  · intro rsa env fetch b q payload sig key hc hx hv hk
    simp only [P3.handler, hc, if_pos]
    rw [P3_postFlow_characterization, hx]
    simp [hv, hk]
  · intro rsa env fetch b q payload sig key hc hx hv hk
    cases b with
    | parseError => simp [P3.extractShape] at hx
    | parsed v =>
      by_cases hn : v.isNull = true
      · simp [P3.extractShape, hn] at hx
      · simp [P3.extractShape, hn] at hx
        simp only [P0.handler, hc, if_pos]
        simp [P0.postFlow, hn, hx, hv, hk]
        cases P0.isKeyValidInGist fetch key <;> rfl

/-- A caller payload that lies: it names key `zzz` (absent from the
`fetch0` registry) but claims `valid: true` with redemption details. -/
def lyingPayload : JVal :=
  .obj [("key", .str "zzz"), ("valid", .bool true),
        ("redeemed_by", .str "eve"), ("redeemed_at", .str "2020-01-01")]

/-- A POST body carrying `lyingPayload` with a signature `rsa0` accepts. -/
def lyingBody : ReqBody :=
  .parsed (.obj [("payload", lyingPayload),
                 ("signature", .str (jsonStringify lyingPayload))])

/-- Witness for claim C5 at concrete inputs: the caller's `valid: true`
and redemption fields are ignored — the verdict is the fresh lookup of
`zzz`, which is `invalid`. -/
theorem claim_C5_witness :
    (P3.handler rsa0 env0 fetch0 ⟨.POST, lyingBody, none⟩
      = ⟨⟨200, "text/plain", verdictText (P3.isKeyValidInGist fetch0 "zzz")⟩, true⟩) ∧
    (P0.handler rsa0 env0 fetch0 ⟨.POST, lyingBody, none⟩
      = ⟨⟨200, "application/json",
          jsonStringify (.obj [("valid", .bool false)])⟩, true⟩) ∧
    verdictText (P3.isKeyValidInGist fetch0 "zzz") = "invalid" :=
  ⟨claim_C5_fresh_verdict.1 rsa0 env0 fetch0 lyingBody none lyingPayload
     (jsonStringify lyingPayload) "zzz" (by decide) rfl (by decide)
     (by decide),
   by
     have h := claim_C5_fresh_verdict.2 rsa0 env0 fetch0 lyingBody none
       lyingPayload (jsonStringify lyingPayload) "zzz" (by decide) rfl
       (by decide) (by decide)
     rw [h]
     decide,
   by decide⟩

/-- The named file's GET branch refuses issuance for a key the lookup
rejects: plain `invalid`, no license. -/
theorem M_getFlow_refuse (hmac : String → String → String) (env : Env)
    (fetch : FetchOutcome) (t k : String) (b : ReqBody)
    (hc : env.configured = true) (hk : k ≠ "")
    (hnot : M.isKeyValidInGist fetch k = false) :
    M.handler hmac env fetch t ⟨.GET, b, some k⟩ = ⟨invalidPlain, true⟩ := by
  have hk2 := isEmpty_false_of_ne k hk
  simp only [M.handler, hc, if_pos]
  simp [M.getFlow, hk2, hnot]

/-- The named file's GET branch issues the license blob for a key the
lookup accepts: the signature is the HMAC over the serialized minimal
`\x7bkey\x7d` payload, and `issued_at` sits in the blob outside it. -/
theorem M_getFlow_issue (hmac : String → String → String) (env : Env)
    (fetch : FetchOutcome) (t k : String) (b : ReqBody)
    (hc : env.configured = true) (hk : k ≠ "")
    (hok : M.isKeyValidInGist fetch k = true) :
    M.handler hmac env fetch t ⟨.GET, b, some k⟩
      = ⟨⟨200, "application/json",
          jsonStringify (M.licenseBlob k t
            (hmac env.secretVal (jsonStringify (keyPayload k))))⟩, true⟩ := by
  have hk2 := isEmpty_false_of_ne k hk
  simp only [M.handler, hc, if_pos]
  simp [M.getFlow, hk2, hok]

/-- `part_003`'s GET branch issues for every truthy key, whatever the
lookup said: the response embeds `issuePayload k keyOk` and its
signature. -/
theorem P3_getFlow_issue (rsa : RsaScheme) (env : Env) (fetch : FetchOutcome)
    (k sig : String) (b : ReqBody) (hc : env.configured = true) (hk : k ≠ "")
    (hsig : rsa.sign (jsonStringify (P3.issuePayload k (P3.isKeyValidInGist fetch k)))
      = some sig) :
    P3.handler rsa env fetch ⟨.GET, b, some k⟩
      = ⟨⟨200, "application/json",
          jsonStringify (.obj [("payload",
              P3.issuePayload k (P3.isKeyValidInGist fetch k)),
            ("signature", .str sig)])⟩, true⟩ := by
  have hk2 := isEmpty_false_of_ne k hk
  simp only [P3.handler, hc, if_pos]
  simp [P3.getFlow, hk2, hsig]

/-- Counterexample to claim C6 as stated: in the named file (one of the
two cited GET branches) a key absent from the registry is refused — the
response is the plain-text `invalid` rejection, not a signed verdict with
`valid = false`. -/
theorem claim_C6_counterexample :
    M.isKeyValidInGist fetch0 "zzz" = false ∧
    (M.handler hmac0 env0 fetch0 "t" ⟨.GET, .parseError, some "zzz"⟩).resp
      = invalidPlain ∧
    (M.handler hmac0 env0 fetch0 "t" ⟨.GET, .parseError, some "zzz"⟩).resp.contentType
      ≠ "application/json" := by decide

/-- Claim C6 amended: only the RSA variants issue without gating on
validity — `part_003` (and `part_000`) signs a payload with
`valid = false` for an absent key; the named file's (HMAC) GET branch
instead refuses issuance with the plain `invalid` response whenever the
lookup fails. -/
theorem claim_C6_issue_gating_amended :
    (∀ (hmac : String → String → String) (env : Env) (fetch : FetchOutcome)
       (t k : String) (b : ReqBody),
      env.configured = true → k ≠ "" → M.isKeyValidInGist fetch k = false →
      M.handler hmac env fetch t ⟨.GET, b, some k⟩ = ⟨invalidPlain, true⟩) ∧
    (∀ (rsa : RsaScheme) (env : Env) (fetch : FetchOutcome) (k sig : String)
       (b : ReqBody),
      env.configured = true → k ≠ "" →
      P3.isKeyValidInGist fetch k = false →
      rsa.sign (jsonStringify (P3.issuePayload k false)) = some sig →
      P3.handler rsa env fetch ⟨.GET, b, some k⟩
        = ⟨⟨200, "application/json",
            jsonStringify (.obj [("payload", P3.issuePayload k false),
                                 ("signature", .str sig)])⟩, true⟩) ∧
    (∀ k : String,
      getField (P3.issuePayload k false) "valid" = some (.bool false)) := by
  refine ⟨M_getFlow_refuse, ?_, ?_⟩
  · intro rsa env fetch k sig b hc hk hnot hsig
    have h := P3_getFlow_issue rsa env fetch k sig b hc hk (by rw [hnot]; exact hsig)
    rw [h, hnot]
  · intro k
    simp [P3.issuePayload, getField, getField.lookupField]

/-- Witness for the amended claim C6 at concrete inputs: key `zzz` is
absent; the named file refuses, `part_003` issues with `valid = false`. -/
theorem claim_C6_witness :
    (M.handler hmac0 env0 fetch0 "t" ⟨.GET, .parseError, some "zzz"⟩
      = ⟨invalidPlain, true⟩) ∧
    (P3.handler rsa0 env0 fetch0 ⟨.GET, .parseError, some "zzz"⟩
      = ⟨⟨200, "application/json",
          jsonStringify (.obj [("payload", P3.issuePayload "zzz" false),
                               ("signature",
                                .str (jsonStringify (P3.issuePayload "zzz" false)))])⟩,
         true⟩) :=
  ⟨claim_C6_issue_gating_amended.1 hmac0 env0 fetch0 "t" "zzz" .parseError
     (by decide) (by decide) (by decide),
   claim_C6_issue_gating_amended.2.1 rsa0 env0 fetch0 "zzz"
     (jsonStringify (P3.issuePayload "zzz" false)) .parseError
     (by decide) (by decide) (by decide) rfl⟩

/-- Counterexample to claim C7 as stated: in the named file a
configuration error (missing secrets, POST), a signature-mismatch
rejection, and a malformed-input rejection all produce the identical
`200 text/plain "invalid"` response — the three outcomes are collapsed,
and in particular the configuration error is not surfaced distinctly from
the `invalid` verdict. -/
theorem claim_C7_counterexample :
    (M.handler hmac0 envMissing fetch0 "t" ⟨.POST, badSigBody, none⟩).resp
      = invalidPlain ∧
    (M.handler hmac0 env0 fetch0 "t" ⟨.POST, badSigBody, none⟩).resp
      = invalidPlain ∧
    (M.handler hmac0 env0 fetch0 "t" ⟨.POST, .parseError, none⟩).resp
      = invalidPlain ∧
    envMissing.configured = false ∧
    (M.verifyHmacSignature hmac0 env0.secretVal (keyPayload "abc123") "ab").result
      = false := by decide

/-- Claim C7 amended: the `part_000` variant does keep the three failure
outcomes distinct (500 JSON for missing configuration, 400 JSON for
malformed input, 200 JSON `\x7bvalid:false, error:"Signature invalid"\x7d`
for a signature mismatch — three pairwise different responses); the named
file collapses all three into the same `200 text/plain "invalid"`
response on GET/POST, surfacing the configuration error distinctly (as a
500) only for other methods. -/
theorem claim_C7_distinguishability_amended :
    (∀ (hmac : String → String → String) (env : Env) (fetch : FetchOutcome)
       (t : String) (b : ReqBody) (q : Option String),
      env.configured = false →
      (M.handler hmac env fetch t ⟨.POST, b, q⟩).resp = invalidPlain) ∧
    (∀ (hmac : String → String → String) (env : Env) (fetch : FetchOutcome)
       (t : String) (q : Option String),
      env.configured = true →
      (M.handler hmac env fetch t ⟨.POST, .parseError, q⟩).resp = invalidPlain) ∧
    (∀ (hmac : String → String → String) (env : Env) (fetch : FetchOutcome)
       (t : String) (b : ReqBody) (q : Option String) (k s : String),
      env.configured = true →
      M.extract b = some (k, s) →
      (M.verifyHmacSignature hmac env.secretVal (keyPayload k) s).result = false →
      (M.handler hmac env fetch t ⟨.POST, b, q⟩).resp = invalidPlain) ∧
    (∀ (rsa : RsaScheme) (env : Env) (fetch : FetchOutcome) (b : ReqBody)
       (q : Option String),
      env.configured = false →
      (P0.handler rsa env fetch ⟨.POST, b, q⟩).resp
        = ⟨500, "application/json",
           jsonStringify (.obj [("error", .str "Server misconfigured")])⟩) ∧
    (∀ (rsa : RsaScheme) (env : Env) (fetch : FetchOutcome) (q : Option String),
      env.configured = true →
      (P0.handler rsa env fetch ⟨.POST, .parseError, q⟩).resp
        = ⟨400, "application/json", P0.errBody "Invalid JSON body"⟩) ∧
    (∀ (rsa : RsaScheme) (env : Env) (fetch : FetchOutcome) (b : ReqBody)
       (q : Option String) (payload : JVal) (sig : String),
      env.configured = true →
      P3.extractShape b = some (payload, sig) →
      rsa.verify (jsonStringify payload) sig = false →
      (P0.handler rsa env fetch ⟨.POST, b, q⟩).resp
        = ⟨200, "application/json", P0.errBody "Signature invalid"⟩) ∧
    ((⟨500, "application/json",
        jsonStringify (.obj [("error", .str "Server misconfigured")])⟩ : HttpResponse)
       ≠ ⟨400, "application/json", P0.errBody "Invalid JSON body"⟩ ∧
     (⟨400, "application/json", P0.errBody "Invalid JSON body"⟩ : HttpResponse)
       ≠ ⟨200, "application/json", P0.errBody "Signature invalid"⟩ ∧
     (⟨500, "application/json",
        jsonStringify (.obj [("error", .str "Server misconfigured")])⟩ : HttpResponse)
       ≠ ⟨200, "application/json", P0.errBody "Signature invalid"⟩) := by
  refine ⟨?_, ?_, ?_, ?_, ?_, ?_, by decide⟩
  · intro hmac env fetch t b q hc
    simp [M.handler, hc]
  · intro hmac env fetch t q hc
    simp [M.handler, hc, M.postFlow]
  · intro hmac env fetch t b q k s hc hx hv
    simp only [M.handler, hc, if_pos]
    rw [M_postFlow_characterization, hx]
    simp [hv]
  · intro rsa env fetch b q hc
    simp [P0.handler, hc]
  · intro rsa env fetch q hc
    simp [P0.handler, hc, P0.postFlow]
  · intro rsa env fetch b q payload sig hc hx hv
    cases b with
    | parseError => simp [P3.extractShape] at hx
    | parsed v =>
      by_cases hn : v.isNull = true
      · simp [P3.extractShape, hn] at hx
      · simp [P3.extractShape, hn] at hx
        simp only [P0.handler, hc, if_pos]
        simp [P0.postFlow, hn, hx, hv]

/-- Witness for the amended claim C7 at concrete inputs: the three
responses of the named file are equal, the three of `part_000` are the
distinct 500/400/200 JSON responses. -/
theorem claim_C7_witness :
    ((M.handler hmac0 envMissing fetch0 "t" ⟨.POST, badSigBody, none⟩).resp
       = invalidPlain) ∧
    ((M.handler hmac0 env0 fetch0 "t" ⟨.POST, .parseError, none⟩).resp
       = invalidPlain) ∧
    ((M.handler hmac0 env0 fetch0 "t" ⟨.POST, badSigBody, none⟩).resp
       = invalidPlain) ∧
    ((P0.handler rsa0 envMissing fetch0 ⟨.POST, badSigBody, none⟩).resp
       = ⟨500, "application/json",
          jsonStringify (.obj [("error", .str "Server misconfigured")])⟩) ∧
    ((P0.handler rsa0 env0 fetch0 ⟨.POST, .parseError, none⟩).resp
       = ⟨400, "application/json", P0.errBody "Invalid JSON body"⟩) ∧
    ((P0.handler rsa0 env0 fetch0 ⟨.POST, badSigBody, none⟩).resp
       = ⟨200, "application/json", P0.errBody "Signature invalid"⟩) :=
  ⟨claim_C7_distinguishability_amended.1 hmac0 envMissing fetch0 "t" badSigBody
     none (by decide),
   claim_C7_distinguishability_amended.2.1 hmac0 env0 fetch0 "t" none (by decide),
   claim_C7_distinguishability_amended.2.2.1 hmac0 env0 fetch0 "t" badSigBody
     none "abc123" "ab" (by decide) (by decide) (by decide),
   claim_C7_distinguishability_amended.2.2.2.1 rsa0 envMissing fetch0 badSigBody
     none (by decide),
   claim_C7_distinguishability_amended.2.2.2.2.1 rsa0 env0 fetch0 none (by decide),
   claim_C7_distinguishability_amended.2.2.2.2.2.1 rsa0 env0 fetch0 badSigBody
     none (.obj [("key", .str "abc123")]) "ab" (by decide) rfl (by decide)⟩

/-- A supplied signature of 65 characters: a full 64-hex-digit digest
followed by one non-hex character.  Node's hex decoding truncates at the
trailing garbage, so it decodes to the same 32 bytes as the digest. -/
def sig65 : String :=
  "0000000000000000000000000000000000000000000000000000000000000000z"

/-- Counterexample to claim C8 as stated: in `part_001` (one of the two
cited verifiers) a signature whose length (65) differs from the expected
digest's (64) is not rejected immediately — the decoded buffers have
equal length, a value comparison is performed, and it even verifies. -/
theorem claim_C8_counterexample :
    sig65.length ≠ (hmac0 "s" (jsonStringify (keyPayload "k"))).length ∧
    P1.verifyHmacSignature hmac0 "s" (keyPayload "k") sig65 = ⟨true, true⟩ := by
  decide

/-- Claim C8 amended: in the named file the gate is on the signature
string's length — a differing length is rejected immediately with no
value comparison, and a comparison only ever happens over decoded buffers
of equal length.  The `part_001` variant instead gates on the length of
the hex-decoded buffers, so a signature of differing string length whose
decoded prefix has the expected byte length still reaches the value
comparison. -/
theorem claim_C8_length_gate_amended :
    (∀ (hmac : String → String → String) (secret : String) (p : JVal)
       (sig : String),
      sig.length ≠ (hmac secret (jsonStringify p)).length →
      M.verifyHmacSignature hmac secret p sig = ⟨false, false⟩) ∧
    (∀ (hmac : String → String → String) (secret : String) (p : JVal)
       (sig : String),
      (M.verifyHmacSignature hmac secret p sig).compared = true →
      (hexDecode sig).length = (hexDecode (hmac secret (jsonStringify p))).length) ∧
    (∀ (hmac : String → String → String) (secret : String) (p : JVal)
       (sig : String),
      (hexDecode sig).length ≠ (hexDecode (hmac secret (jsonStringify p))).length →
      P1.verifyHmacSignature hmac secret p sig = ⟨false, false⟩) ∧
    (∀ (hmac : String → String → String) (secret : String) (p : JVal)
       (sig : String),
      (P1.verifyHmacSignature hmac secret p sig).compared = true →
      (hexDecode sig).length = (hexDecode (hmac secret (jsonStringify p))).length) := by
  refine ⟨?_, ?_, ?_, ?_⟩
  · intro hmac secret p sig hlen
    simp [M.verifyHmacSignature, hlen]
  · intro hmac secret p sig hcmp
    by_cases hlen : sig.length = (hmac secret (jsonStringify p)).length
    · by_cases hbuf :
        (hexDecode sig).length = (hexDecode (hmac secret (jsonStringify p))).length
      · exact hbuf
      · simp [M.verifyHmacSignature, hlen, hbuf] at hcmp
    · simp [M.verifyHmacSignature, hlen] at hcmp
  · intro hmac secret p sig hbuf
    simp [P1.verifyHmacSignature, hbuf]
  · intro hmac secret p sig hcmp
    by_cases hbuf :
      (hexDecode sig).length = (hexDecode (hmac secret (jsonStringify p))).length
    · exact hbuf
    · simp [P1.verifyHmacSignature, hbuf] at hcmp

/-- Witness for the amended claim C8 at concrete inputs: a 2-character
signature is rejected by the named file with no comparison; a 63-character
one (31 decoded bytes) is rejected by `part_001` with no comparison. -/
theorem claim_C8_witness :
    (M.verifyHmacSignature hmac0 "s" (keyPayload "k") "ab" = ⟨false, false⟩) ∧
    (P1.verifyHmacSignature hmac0 "s" (keyPayload "k")
      "000000000000000000000000000000000000000000000000000000000000000"
      = ⟨false, false⟩) :=
  ⟨claim_C8_length_gate_amended.1 hmac0 "s" (keyPayload "k") "ab" (by decide),
   claim_C8_length_gate_amended.2.2.1 hmac0 "s" (keyPayload "k")
     "000000000000000000000000000000000000000000000000000000000000000"
     (by decide)⟩

/-- Claim C9: in the named file's HMAC path the signature covers only the
serialized minimal `\x7bkey\x7d` payload.  The POST outcome is a function of
the extracted `(key, signature)` pair and the registry alone, so two
verify requests agreeing on them — however they differ in `issued_at` or
any other payload field — get identical outcomes; and the issued license
blob carries `issued_at` next to a signature computed as the HMAC over
`JSON.stringify(\x7bkey\x7d)`, in which `issued_at` does not occur. -/
theorem claim_C9_hmac_covers_key_only :
    (∀ (hmac : String → String → String) (env : Env) (fetch : FetchOutcome)
       (t : String) (b : ReqBody) (q : Option String) (k s : String),
      env.configured = true → M.extract b = some (k, s) →
      M.handler hmac env fetch t ⟨.POST, b, q⟩
        = if (M.verifyHmacSignature hmac env.secretVal (keyPayload k) s).result
          then ⟨⟨200, "text/plain", verdictText (M.isKeyValidInGist fetch k)⟩, true⟩
          else ⟨invalidPlain, false⟩) ∧
    (∀ (hmac : String → String → String) (env : Env) (fetch : FetchOutcome)
       (t : String) (b1 b2 : ReqBody) (q1 q2 : Option String) (k s : String),
      env.configured = true →
      M.extract b1 = some (k, s) → M.extract b2 = some (k, s) →
      M.handler hmac env fetch t ⟨.POST, b1, q1⟩
        = M.handler hmac env fetch t ⟨.POST, b2, q2⟩) ∧
    (∀ (hmac : String → String → String) (env : Env) (fetch : FetchOutcome)
       (t k : String) (b : ReqBody),
      env.configured = true → k ≠ "" → M.isKeyValidInGist fetch k = true →
      M.handler hmac env fetch t ⟨.GET, b, some k⟩
        = ⟨⟨200, "application/json",
            jsonStringify (M.licenseBlob k t
              (hmac env.secretVal (jsonStringify (keyPayload k))))⟩, true⟩) := by
  have hpost : ∀ (hmac : String → String → String) (env : Env)
      (fetch : FetchOutcome) (t : String) (b : ReqBody) (q : Option String)
      (k s : String), env.configured = true → M.extract b = some (k, s) →
      M.handler hmac env fetch t ⟨.POST, b, q⟩
        = if (M.verifyHmacSignature hmac env.secretVal (keyPayload k) s).result
          then ⟨⟨200, "text/plain", verdictText (M.isKeyValidInGist fetch k)⟩, true⟩
          else ⟨invalidPlain, false⟩ := by
    intro hmac env fetch t b q k s hc hx
    simp only [M.handler, hc, if_pos]
    rw [M_postFlow_characterization, hx]
  refine ⟨hpost, ?_, M_getFlow_issue⟩
  intro hmac env fetch t b1 b2 q1 q2 k s hc hx1 hx2
  rw [hpost hmac env fetch t b1 q1 k s hc hx1,
      hpost hmac env fetch t b2 q2 k s hc hx2]

/-- A verify body semantically equal to `claim_C4_witness`'s HMAC body but
with a tampered `issued_at` and extra payload fields — same key, same
signature. -/
def noisyBody : ReqBody :=
  .parsed (.obj [("payload",
                  .obj [("key", .str "abc123"), ("valid", .bool false),
                        ("mood", .str "chaotic")]),
                 ("issued_at", .str "1999-01-01T00:00:00Z"),
                 ("signature",
                  .str (hmac0 env0.secretVal (jsonStringify (keyPayload "abc123"))))])

/-- The minimal verify body with the same key and signature. -/
def plainBody : ReqBody :=
  .parsed (.obj [("payload", keyPayload "abc123"),
                 ("signature",
                  .str (hmac0 env0.secretVal (jsonStringify (keyPayload "abc123"))))])

/-- Witness for claim C9 at concrete inputs: tampering with `issued_at`
and the non-key payload fields leaves the verify outcome unchanged, and
the issued blob's signature is the HMAC over the serialized `\x7bkey\x7d`
payload only. -/
theorem claim_C9_witness :
    (M.handler hmac0 env0 fetch0 "t" ⟨.POST, noisyBody, none⟩
      = M.handler hmac0 env0 fetch0 "t" ⟨.POST, plainBody, none⟩) ∧
    (M.handler hmac0 env0 fetch0 "2024-06-01" ⟨.GET, .parseError, some "abc123"⟩
      = ⟨⟨200, "application/json",
          jsonStringify (M.licenseBlob "abc123" "2024-06-01"
            (hmac0 env0.secretVal (jsonStringify (keyPayload "abc123"))))⟩, true⟩) :=
  ⟨claim_C9_hmac_covers_key_only.2.1 hmac0 env0 fetch0 "t" noisyBody plainBody
     none none "abc123" (hmac0 env0.secretVal (jsonStringify (keyPayload "abc123")))
     (by decide) rfl rfl,
   claim_C9_hmac_covers_key_only.2.2 hmac0 env0 fetch0 "2024-06-01" "abc123"
     .parseError (by decide) (by decide) (by decide)⟩

/-- Claim C10: the RSA issue path always embeds `redeemed_by = null` and
`redeemed_at = null` in the issued payload, for every key and registry
state; when the registry marks the key redeemed, only `valid = false`
surfaces — the redemption detail (who, when) is never embedded.  The GET
branch returns exactly this payload, signed. -/
theorem claim_C10_issue_redemption_nulls :
    (∀ (k : String) (b : Bool),
      getField (P3.issuePayload k b) "redeemed_by" = some .null ∧
      getField (P3.issuePayload k b) "redeemed_at" = some .null) ∧
    (∀ (content k who : String) (t : Option String),
      structuredStatus (jsSplit '\n' content) k = .Redeemed who t →
      getField (P3.issuePayload k (P3.isKeyValidInGist (.ok (some content)) k))
          "valid"
        = some (.bool false)) ∧
    (∀ (rsa : RsaScheme) (env : Env) (fetch : FetchOutcome) (k sig : String)
       (b : ReqBody),
      env.configured = true → k ≠ "" →
      rsa.sign (jsonStringify (P3.issuePayload k (P3.isKeyValidInGist fetch k)))
        = some sig →
      P3.handler rsa env fetch ⟨.GET, b, some k⟩
        = ⟨⟨200, "application/json",
            jsonStringify (.obj [("payload",
                P3.issuePayload k (P3.isKeyValidInGist fetch k)),
              ("signature", .str sig)])⟩, true⟩) := by
  refine ⟨?_, ?_, ?_⟩
  · intro k b
    exact ⟨by simp [P3.issuePayload, getField, getField.lookupField],
           by simp [P3.issuePayload, getField, getField.lookupField]⟩
  · intro content k who t hst
    have hb : structuredBool (jsSplit '\n' content) k = false := by
      rw [structuredBool_eq_valid, hst]
      simp
    have hlook : P3.isKeyValidInGist (.ok (some content)) k = false := by
      simpa [P3.isKeyValidInGist] using hb
    rw [hlook]
    simp [P3.issuePayload, getField, getField.lookupField]
  · intro rsa env fetch k sig b hc hk hsig
    exact P3_getFlow_issue rsa env fetch k sig b hc hk hsig

/-- Witness for claim C10 at concrete inputs: key `def456` is redeemed by
`alice` in the scenario registry, yet the issued payload carries only
`valid = false` with both redemption fields `null`. -/
theorem claim_C10_witness :
    (getField (P3.issuePayload "def456" false) "redeemed_by" = some .null ∧
     getField (P3.issuePayload "def456" false) "redeemed_at" = some .null) ∧
    (getField
        (P3.issuePayload "def456"
          (P3.isKeyValidInGist (.ok (some scenarioContent)) "def456")) "valid"
      = some (.bool false)) ∧
    (P3.handler rsa0 env0 (.ok (some scenarioContent)) ⟨.GET, .parseError, some "def456"⟩
      = ⟨⟨200, "application/json",
          jsonStringify (.obj [("payload",
              P3.issuePayload "def456"
                (P3.isKeyValidInGist (.ok (some scenarioContent)) "def456")),
            ("signature",
             .str (jsonStringify (P3.issuePayload "def456"
               (P3.isKeyValidInGist (.ok (some scenarioContent)) "def456"))))])⟩,
         true⟩) :=
  ⟨claim_C10_issue_redemption_nulls.1 "def456" false,
   claim_C10_issue_redemption_nulls.2.1 scenarioContent "def456" "alice"
     (some "2024-01-01") (by decide),
   claim_C10_issue_redemption_nulls.2.2 rsa0 env0 (.ok (some scenarioContent))
     "def456"
     (jsonStringify (P3.issuePayload "def456"
       (P3.isKeyValidInGist (.ok (some scenarioContent)) "def456")))
     .parseError (by decide) (by decide) rfl⟩
